import Mathlib

/-!
# Face-recognition orchestrator (`microservice2/main.go`)

A shallow embedding of the request handler `faceRecognition` and of the three
helpers it sequences: `callMicroService1`, `uploadFilesToBlobStorage` and
`storeTransaction`.

The handler talks to three external collaborators (the comparison service, the
blob container and the document store).  Their answers are not computed by the
program, so they are supplied by an `Env` record: one field per fallible call
of the source, in source order.  The handler is then a pure function from the
environment, the state of the two stores and the inbound request to the HTTP
response, the new state of the stores and the list of outbound calls made.
-/

namespace FaceRecognition

/-! ## Data model -/

/-- File contents and HTTP bodies. -/
abbrev Bytes := List Nat

/-- Go `error` value: `none` is `nil`, `some msg` is a non-nil error. -/
abbrev Err := Option String

/-- The `Transaction` struct (main.go 24-30). `Timestamp` is a clock reading. -/
structure Transaction where
  ID : String
  Timestamp : Nat
  Matched : Bool
  File1 : String
  File2 : String
deriving DecidableEq, Repr

/-- The part of `multipart.FileHeader` the program reads: the original file name
and the bytes a successful `Open` yields. -/
structure FileHeader where
  Filename : String
  content : Bytes
deriving DecidableEq, Repr

/-- Inbound request: the parsed multipart form as a list of (field name, file)
pairs in arrival order, or `none` when the body is not a readable multipart form. -/
structure Request where
  form : Option (List (String × FileHeader))
deriving DecidableEq, Repr

/-- Values a `gin.H` response map holds in this program. -/
inductive HValue where
  | str (s : String)
  | bool (b : Bool)
deriving DecidableEq, Repr

/-- Result of `c.JSON(status, gin.H ...)`: the status code and the fields of the map. -/
structure Response where
  status : Nat
  body : List (String × HValue)
deriving DecidableEq, Repr

/-- A decoded JSON document, as `encoding/json` stores it in an `interface` value:
`nil`, `bool`, `float64` (kept as its literal), `string`, slice, map. -/
inductive JSONValue where
  | null
  | bool (b : Bool)
  | number (lit : String)
  | string (s : String)
  | array (items : List JSONValue)
  | object (members : List (String × JSONValue))

/-- Go `map[string]interface` as an association list with at most one entry per key. -/
abbrev GoMap := List (String × JSONValue)

/-- Map assignment `m[k] = v`: a previous entry for `k` is replaced. -/
def GoMap.set (m : GoMap) (k : String) (v : JSONValue) : GoMap :=
  (k, v) :: m.filter (fun p => p.1 != k)

/-- Map index `m[k]`; `none` stands for the zero value `nil` of a missing key. -/
def GoMap.get (m : GoMap) (k : String) : Option JSONValue :=
  m.lookup k

/-- The five process-wide settings read from `.env` (main.go 40-46). -/
structure Config where
  service1Url : String
  accountName : String
  accountKey : String
  containerName : String
  mongoUrl : String
deriving DecidableEq, Repr

/-- Outcomes of every fallible library or network call of the program, in the
order of the source.  `blobOpen i` and `createBlockBlob i` are the outcomes for
the i-th file (counted from 0) of the upload loop. -/
structure Env where
  cfg : Config
  createFormFile1 : Err
  open1 : Err
  copy1 : Err
  createFormFile2 : Err
  open2 : Err
  copy2 : Err
  newRequest : Err
  clientDo : Err
  readAll : Except String Bytes
  jsonParse : Bytes → Except String JSONValue
  uuidNew : Option String
  timeNow : Nat
  newBasicClient : Err
  createIfNotExists : Err
  blobOpen : Nat → Err
  createBlockBlob : Nat → Err
  mongoConnect : Err
  insertOne : Err

/-- State of the two stores the program writes to. -/
structure World where
  containerExists : Bool
  blobs : List (String × Bytes)
  records : List Transaction
deriving DecidableEq, Repr

/-- Outbound calls, in the order they are issued; `ok` tells whether the call
returned without error. -/
inductive Event where
  | callService1 (url name1 : String) (body1 : Bytes) (name2 : String) (body2 : Bytes) (ok : Bool)
  | createContainer (name : String) (ok : Bool)
  | putBlob (key : String) (body : Bytes) (ok : Bool)
  | mongoConnect (url : String) (ok : Bool)
  | insertOne (tx : Transaction) (ok : Bool)
  | mongoDisconnect
deriving DecidableEq, Repr

/-- Whether the call returned without error (`mongoDisconnect` has no checked result). -/
def Event.ok : Event → Bool
  | .callService1 _ _ _ _ _ ok => ok
  | .createContainer _ ok => ok
  | .putBlob _ _ ok => ok
  | .mongoConnect _ ok => ok
  | .insertOne _ ok => ok
  | .mongoDisconnect => true

/-- Keys of the blob uploads attempted in a trace, in order. -/
def putKeys : List Event → List String
  | [] => []
  | .putBlob key _ _ :: rest => key :: putKeys rest
  | _ :: rest => putKeys rest

/-- Whether the event is a call to the document store's insert. -/
def Event.isInsert : Event → Bool
  | .insertOne _ _ => true
  | _ => false

/-- Whether the event is a call to the document store at all. -/
def Event.isMongo : Event → Bool
  | .mongoConnect _ _ => true
  | .insertOne _ _ => true
  | .mongoDisconnect => true
  | _ => false

/-! ## External collaborators

The object store is a put-blob-by-key service and the document store an
insert-one service.  A call that returns an error is taken to have left the
store as it was. -/

/-- Put-blob-by-key of the object store: the blob under `key` is created or
overwritten with `body`. -/
def putBlob (key : String) (body : Bytes) (blobs : List (String × Bytes)) : List (String × Bytes) :=
  (key, body) :: blobs.filter (fun p => p.1 != key)

/-- Blob stored under `key`, if any. -/
def getBlob (key : String) (blobs : List (String × Bytes)) : Option Bytes :=
  blobs.lookup key

/-- Decoding with `json.Unmarshal(data, &response)` where `response` is a nil
`map[string]interface`: a syntax error fails, an object fills a fresh map member
by member (a repeated key keeps its last value), `null` leaves the map nil, and
any other document is a type error. -/
def jsonUnmarshal (env : Env) (data : Bytes) : Except String GoMap :=
  match env.jsonParse data with
  | .error e => .error e
  | .ok (.object members) => .ok (members.foldl (fun m kv => GoMap.set m kv.1 kv.2) [])
  | .ok .null => .ok []
  | .ok _ => .error "json: cannot unmarshal into Go value of type map[string]interface"

/-- Lookup `c.FormFile(name)`: the first file of the form under `name`; `none`
stands for a non-nil error. -/
def formFile (req : Request) (name : String) : Option FileHeader :=
  match req.form with
  | none => none
  | some parts => parts.lookup name

/-! ## The program -/

/-- Embedding of `callMicroService1` (main.go 169-243): result and outbound calls. -/
def callMicroService1 (env : Env) (file1 file2 : FileHeader) : Except String Bool × List Event :=
  match env.createFormFile1 with
  | some err => (.error err, [])
  | none =>
  match env.open1 with
  | some err => (.error err, [])
  | none =>
  match env.copy1 with
  | some err => (.error err, [])
  | none =>
  match env.createFormFile2 with
  | some err => (.error err, [])
  | none =>
  match env.open2 with
  | some err => (.error err, [])
  | none =>
  match env.copy2 with
  | some err => (.error err, [])
  | none =>
  match env.newRequest with
  | some err => (.error err, [])
  | none =>
  match env.clientDo with
  | some err =>
    (.error err,
      [.callService1 env.cfg.service1Url file1.Filename file1.content file2.Filename file2.content false])
  | none =>
  let sent : List Event :=
    [.callService1 env.cfg.service1Url file1.Filename file1.content file2.Filename file2.content true]
  match env.readAll with
  | .error err => (.error err, sent)
  | .ok responseBody =>
  match jsonUnmarshal env responseBody with
  | .error err => (.error err, sent)
  | .ok response =>
  match response.get "matched" with
  | some (.bool matched) => (.ok matched, sent)
  | _ => (.error "distance not found in response", sent)

/-- The loop of `uploadFilesToBlobStorage` (main.go 149-164); `i` is the index of
the first file of `files`. -/
def uploadLoop (env : Env) (transaction : Transaction) :
    Nat → World → List FileHeader → Err × World × List Event
  | _, w, [] => (none, w, [])
  | i, w, fileHeader :: rest =>
    match env.blobOpen i with
    | some err => (some err, w, [])
    | none =>
    let blob := transaction.ID ++ "_" ++ fileHeader.Filename
    match env.createBlockBlob i with
    | some err => (some err, w, [.putBlob blob fileHeader.content false])
    | none =>
      let w1 : World := { w with blobs := putBlob blob fileHeader.content w.blobs }
      match uploadLoop env transaction (i + 1) w1 rest with
      | (err, w2, t) => (err, w2, .putBlob blob fileHeader.content true :: t)

/-- Embedding of `uploadFilesToBlobStorage` (main.go 132-167). -/
def uploadFilesToBlobStorage (env : Env) (w : World) (files : List FileHeader)
    (transaction : Transaction) : Err × World × List Event :=
  match env.newBasicClient with
  | some err => (some err, w, [])
  | none =>
  match env.createIfNotExists with
  | some err => (some err, w, [.createContainer env.cfg.containerName false])
  | none =>
  let w1 : World := { w with containerExists := true }
  match uploadLoop env transaction 0 w1 files with
  | (err, w2, t) => (err, w2, .createContainer env.cfg.containerName true :: t)

/-- Embedding of `storeTransaction` (main.go 245-264). -/
def storeTransaction (env : Env) (w : World) (transaction : Transaction) :
    Err × World × List Event :=
  match env.mongoConnect with
  | some err =>
    (some ("error connecting to MongoDB: " ++ err), w, [.mongoConnect env.cfg.mongoUrl false])
  | none =>
  match env.insertOne with
  | some err =>
    (some ("error inserting transaction: " ++ err), w,
      [.mongoConnect env.cfg.mongoUrl true, .insertOne transaction false, .mongoDisconnect])
  | none =>
    (none, { w with records := w.records ++ [transaction] },
      [.mongoConnect env.cfg.mongoUrl true, .insertOne transaction true, .mongoDisconnect])

/-- The struct literal of main.go 107-113. -/
def newTransaction (recordID : String) (now : Nat) (matched : Bool)
    (_file1 _file2 : FileHeader) : Transaction :=
  { ID := recordID
    Timestamp := now
    Matched := matched
    File1 := recordID ++ "_" ++ _file1.Filename
    File2 := recordID ++ "_" ++ _file2.Filename }

/-- Embedding of `faceRecognition` (main.go 75-130): the response written, the
stores afterwards and the outbound calls made.  `env.uuidNew = none` is the
panic of `uuid.New`, turned into a 500 by the deferred `recover`. -/
def faceRecognition (env : Env) (w : World) (req : Request) : Response × World × List Event :=
  match formFile req "file1" with
  | none => (⟨400, [("error", .str "file1 is required")]⟩, w, [])
  | some _file1 =>
  match formFile req "file2" with
  | none => (⟨400, [("error", .str "file2 is required")]⟩, w, [])
  | some _file2 =>
  match callMicroService1 env _file1 _file2 with
  | (.error _, t1) => (⟨500, [("error", .str "error calling MicroService 1")]⟩, w, t1)
  | (.ok matched, t1) =>
  match env.uuidNew with
  | none => (⟨500, [("error", .str "Internal Server Error")]⟩, w, t1)
  | some recordID =>
  let transaction := newTransaction recordID env.timeNow matched _file1 _file2
  match uploadFilesToBlobStorage env w [_file1, _file2] transaction with
  | (some _, w2, t2) => (⟨500, [("error", .str "failed to save images")]⟩, w2, t1 ++ t2)
  | (none, w2, t2) =>
  match storeTransaction env w2 transaction with
  | (some _, w3, t3) =>
    (⟨500, [("error", .str "error storing transaction")]⟩, w3, t1 ++ t2 ++ t3)
  | (none, w3, t3) =>
    (⟨200, [("message", .str "Transaction recorded and saved images"), ("matched", .bool matched)]⟩,
      w3, t1 ++ t2 ++ t3)

/-! ## Vocabulary of the statements -/

/-- The single outbound call of `callMicroService1`: the POST of both files to
the comparison service (main.go 209-218). -/
def sentEvent (env : Env) (file1 file2 : FileHeader) (ok : Bool) : Event :=
  .callService1 env.cfg.service1Url file1.Filename file1.content file2.Filename file2.content ok

/-- Key under which the upload loop stores a file of a transaction (main.go 156). -/
def blobKey (transaction : Transaction) (fileHeader : FileHeader) : String :=
  transaction.ID ++ "_" ++ fileHeader.Filename

/-- Whether the event is the call to the comparison service. -/
def Event.isCallService1 : Event → Bool
  | .callService1 _ _ _ _ _ _ => true
  | _ => false

/-- The comparison service answered with `responseBody`: every step of
`callMicroService1` up to and including `io.ReadAll` returned without error. -/
def receivesBody (env : Env) (responseBody : Bytes) : Prop :=
  env.createFormFile1 = none ∧ env.open1 = none ∧ env.copy1 = none ∧
  env.createFormFile2 = none ∧ env.open2 = none ∧ env.copy2 = none ∧
  env.newRequest = none ∧ env.clientDo = none ∧ env.readAll = .ok responseBody

/-! ## Concrete inputs -/

/-- A configuration used in the examples. -/
def cfg0 : Config :=
  { service1Url := "http://svc1/compare"
    accountName := "acct"
    accountKey := "key"
    containerName := "faces"
    mongoUrl := "mongodb://db" }

/-- An environment in which every call succeeds and the comparison service
answers with the given document. -/
def envOk (doc : JSONValue) (id : String) : Env :=
  { cfg := cfg0
    createFormFile1 := none
    open1 := none
    copy1 := none
    createFormFile2 := none
    open2 := none
    copy2 := none
    newRequest := none
    clientDo := none
    readAll := .ok [1]
    jsonParse := fun _ => .ok doc
    uuidNew := some id
    timeNow := 7
    newBasicClient := none
    createIfNotExists := none
    blobOpen := fun _ => none
    createBlockBlob := fun _ => none
    mongoConnect := none
    insertOne := none }

/-- The answer `matched: true` of the comparison service. -/
def docTrue : JSONValue := .object [("matched", .bool true)]

/-- Empty stores. -/
def w0 : World := { containerExists := false, blobs := [], records := [] }

/-- First example file. -/
def cat : FileHeader := { Filename := "cat.png", content := [1, 2] }

/-- Second example file. -/
def cat2 : FileHeader := { Filename := "cat2.png", content := [3] }

/-- A request carrying both parts. -/
def reqBoth : Request := { form := some [("file1", cat), ("file2", cat2)] }

/-- A request carrying only `file1`. -/
def reqOnlyFile1 : Request := { form := some [("file1", cat)] }

/-- A request carrying only `file2`. -/
def reqOnlyFile2 : Request := { form := some [("file2", cat2)] }

/-- The answer `matched: 1` of the comparison service: the field is a number. -/
def docNumber : JSONValue := .object [("matched", .number "1")]

/-- The transaction built for `reqBoth` under `envOk docTrue "u1"`. -/
def tx1 : Transaction := newTransaction "u1" 7 true cat cat2

/-- A second file that has the name of `cat` and other bytes. -/
def catAgain : FileHeader := { Filename := "cat.png", content := [3] }

/-- A request whose two parts carry the same original file name. -/
def reqSameName : Request := { form := some [("file1", cat), ("file2", catAgain)] }

/-- Every call succeeds except the insert into the document store. -/
def envInsertFails : Env := { envOk docTrue "u1" with insertOne := some "duplicate key" }

/-- Every call succeeds except the upload of the second file. -/
def envSecondPutFails : Env :=
  { envOk docTrue "u1" with
    createBlockBlob := fun i => if i = 1 then some "put failed" else none }

/-! ## Store and string lemmas -/

theorem getBlob_putBlob_self (key : String) (body : Bytes) (blobs : List (String × Bytes)) :
    getBlob key (putBlob key body blobs) = some body := by
  simp [getBlob, putBlob, List.lookup]

theorem lookup_filter_ne (key k : String) (blobs : List (String × Bytes)) (h : k ≠ key) :
    List.lookup k (blobs.filter (fun p => p.1 != key)) = List.lookup k blobs := by
  induction blobs with
  | nil => rfl
  | cons p rest ih =>
    obtain ⟨a, b⟩ := p
    by_cases ha : a = key
    · subst ha
      have hk : (k == a) = false := by simpa using h
      simp [List.filter, List.lookup, hk, ih]
    · have hne : (a != key) = true := by simpa using ha
      simp only [List.filter, hne, List.lookup]
      rw [ih]

theorem getBlob_putBlob_of_ne (key k : String) (body : Bytes) (blobs : List (String × Bytes))
    (h : k ≠ key) : getBlob k (putBlob key body blobs) = getBlob k blobs := by
  have hk : (k == key) = false := by simpa using h
  simp only [getBlob, putBlob, List.lookup, hk]
  exact lookup_filter_ne key k blobs h

theorem key_prefix_cancel (a b n : String) (h : a ++ "_" ++ n = b ++ "_" ++ n) : a = b := by
  have h1 := congrArg String.data h
  simp only [String.data_append] at h1
  have h2 := List.append_cancel_right (List.append_cancel_right h1)
  exact String.ext h2

theorem key_cross_cancel (a b n m : String) (hl : a.length = b.length)
    (h : a ++ "_" ++ n = b ++ "_" ++ m) : a = b := by
  have h1 := congrArg String.data h
  simp only [String.data_append, List.append_assoc] at h1
  have h2 := List.append_inj h1 hl
  exact String.ext h2.1

theorem blobKey_ne_of_filename_ne (tx : Transaction) (f1 f2 : FileHeader)
    (h : f1.Filename ≠ f2.Filename) : blobKey tx f1 ≠ blobKey tx f2 := by
  intro heq
  have h1 := congrArg String.data heq
  simp only [blobKey, String.data_append, List.append_cancel_left_eq] at h1
  exact h (String.ext h1)

/-! ## Shape of the helper results -/

theorem callMicroService1_ok_trace (env : Env) (file1 file2 : FileHeader) (b : Bool)
    (h : (callMicroService1 env file1 file2).1 = .ok b) :
    (callMicroService1 env file1 file2).2 = [sentEvent env file1 file2 true] := by
  revert h
  simp only [callMicroService1, sentEvent]
  repeat' split
  all_goals simp

theorem callMicroService1_error_trace (env : Env) (file1 file2 : FileHeader) (e : String)
    (h : (callMicroService1 env file1 file2).1 = .error e) :
    (callMicroService1 env file1 file2).2 = [] ∨
    (callMicroService1 env file1 file2).2 = [sentEvent env file1 file2 false] ∨
    (callMicroService1 env file1 file2).2 = [sentEvent env file1 file2 true] := by
  revert h
  simp only [callMicroService1, sentEvent]
  repeat' split
  all_goals simp

theorem callMicroService1_body (env : Env) (f1 f2 : FileHeader) (responseBody : Bytes)
    (hr : receivesBody env responseBody) :
    callMicroService1 env f1 f2 =
      (match jsonUnmarshal env responseBody with
        | .error err => .error err
        | .ok response =>
          match response.get "matched" with
          | some (.bool matched) => .ok matched
          | _ => .error "distance not found in response",
       [sentEvent env f1 f2 true]) := by
  obtain ⟨a1, a2, a3, a4, a5, a6, a7, a8, a9⟩ := hr
  simp only [callMicroService1, a1, a2, a3, a4, a5, a6, a7, a8, a9, sentEvent]
  split
  · rfl
  · split <;> rfl

theorem upload_two_ok (env : Env) (w : World) (f1 f2 : FileHeader) (tx : Transaction)
    (h : (uploadFilesToBlobStorage env w [f1, f2] tx).1 = none) :
    uploadFilesToBlobStorage env w [f1, f2] tx =
      (none,
        { w with
          containerExists := true
          blobs := putBlob (blobKey tx f2) f2.content (putBlob (blobKey tx f1) f1.content w.blobs) },
        [.createContainer env.cfg.containerName true,
         .putBlob (blobKey tx f1) f1.content true,
         .putBlob (blobKey tx f2) f2.content true]) := by
  revert h
  simp only [uploadFilesToBlobStorage, uploadLoop, blobKey]
  repeat' split
  all_goals simp

theorem upload_two_error_shape (env : Env) (w : World) (f1 f2 : FileHeader) (tx : Transaction)
    (e : String) (h : (uploadFilesToBlobStorage env w [f1, f2] tx).1 = some e) :
    (uploadFilesToBlobStorage env w [f1, f2] tx).2.2 = [] ∨
    (uploadFilesToBlobStorage env w [f1, f2] tx).2.2 =
      [.createContainer env.cfg.containerName false] ∨
    (uploadFilesToBlobStorage env w [f1, f2] tx).2.2 =
      [.createContainer env.cfg.containerName true] ∨
    (uploadFilesToBlobStorage env w [f1, f2] tx).2.2 =
      [.createContainer env.cfg.containerName true, .putBlob (blobKey tx f1) f1.content false] ∨
    (uploadFilesToBlobStorage env w [f1, f2] tx).2.2 =
      [.createContainer env.cfg.containerName true, .putBlob (blobKey tx f1) f1.content true] ∨
    (uploadFilesToBlobStorage env w [f1, f2] tx).2.2 =
      [.createContainer env.cfg.containerName true, .putBlob (blobKey tx f1) f1.content true,
       .putBlob (blobKey tx f2) f2.content false] := by
  revert h
  simp only [uploadFilesToBlobStorage, uploadLoop, blobKey]
  repeat' split
  all_goals simp

theorem putKeys_upload_two (env : Env) (w : World) (f1 f2 : FileHeader) (tx : Transaction) :
    putKeys (uploadFilesToBlobStorage env w [f1, f2] tx).2.2 <+: [blobKey tx f1, blobKey tx f2] := by
  simp only [uploadFilesToBlobStorage, uploadLoop, blobKey]
  repeat' split
  all_goals simp [putKeys, List.prefix_cons_iff]

theorem storeTransaction_ok (env : Env) (w : World) (tx : Transaction)
    (h : (storeTransaction env w tx).1 = none) :
    storeTransaction env w tx =
      (none, { w with records := w.records ++ [tx] },
        [.mongoConnect env.cfg.mongoUrl true, .insertOne tx true, .mongoDisconnect]) := by
  revert h
  simp only [storeTransaction]
  repeat' split
  all_goals simp

theorem storeTransaction_error (env : Env) (w : World) (tx : Transaction) (e : String)
    (h : (storeTransaction env w tx).1 = some e) :
    (storeTransaction env w tx).2.1 = w ∧
    ((storeTransaction env w tx).2.2 = [.mongoConnect env.cfg.mongoUrl false] ∨
     (storeTransaction env w tx).2.2 =
       [.mongoConnect env.cfg.mongoUrl true, .insertOne tx false, .mongoDisconnect]) := by
  revert h
  simp only [storeTransaction]
  repeat' split
  all_goals simp

theorem storeTransaction_fails (env : Env) (w : World) (tx : Transaction)
    (h : env.mongoConnect ≠ none ∨ env.insertOne ≠ none) :
    ∃ e, (storeTransaction env w tx).1 = some e := by
  simp only [storeTransaction]
  repeat' split
  all_goals simp_all

/-! ## The paths through `faceRecognition` -/

theorem faceRecognition_compare_error (env : Env) (w : World) (req : Request)
    (f1 f2 : FileHeader) (e : String)
    (h1 : formFile req "file1" = some f1) (h2 : formFile req "file2" = some f2)
    (hc : (callMicroService1 env f1 f2).1 = .error e) :
    faceRecognition env w req =
      (⟨500, [("error", .str "error calling MicroService 1")]⟩, w,
        (callMicroService1 env f1 f2).2) := by
  rcases hcm : callMicroService1 env f1 f2 with ⟨r, t1⟩
  rw [hcm] at hc
  simp only at hc
  subst hc
  simp only [faceRecognition, h1, h2, hcm]

theorem faceRecognition_panic (env : Env) (w : World) (req : Request)
    (f1 f2 : FileHeader) (b : Bool)
    (h1 : formFile req "file1" = some f1) (h2 : formFile req "file2" = some f2)
    (hc : (callMicroService1 env f1 f2).1 = .ok b) (hid : env.uuidNew = none) :
    faceRecognition env w req =
      (⟨500, [("error", .str "Internal Server Error")]⟩, w, (callMicroService1 env f1 f2).2) := by
  rcases hcm : callMicroService1 env f1 f2 with ⟨r, t1⟩
  rw [hcm] at hc
  simp only at hc
  subst hc
  simp only [faceRecognition, h1, h2, hcm, hid]

theorem faceRecognition_upload_error (env : Env) (w : World) (req : Request)
    (f1 f2 : FileHeader) (b : Bool) (id e : String)
    (h1 : formFile req "file1" = some f1) (h2 : formFile req "file2" = some f2)
    (hc : (callMicroService1 env f1 f2).1 = .ok b) (hid : env.uuidNew = some id)
    (hup : (uploadFilesToBlobStorage env w [f1, f2]
      (newTransaction id env.timeNow b f1 f2)).1 = some e) :
    faceRecognition env w req =
      (⟨500, [("error", .str "failed to save images")]⟩,
        (uploadFilesToBlobStorage env w [f1, f2] (newTransaction id env.timeNow b f1 f2)).2.1,
        (callMicroService1 env f1 f2).2 ++
          (uploadFilesToBlobStorage env w [f1, f2] (newTransaction id env.timeNow b f1 f2)).2.2) := by
  rcases hcm : callMicroService1 env f1 f2 with ⟨r, t1⟩
  rw [hcm] at hc
  simp only at hc
  subst hc
  rcases hu : uploadFilesToBlobStorage env w [f1, f2] (newTransaction id env.timeNow b f1 f2)
    with ⟨r2, w2, t2⟩
  rw [hu] at hup
  simp only at hup
  subst hup
  simp only [faceRecognition, h1, h2, hcm, hid, hu]

theorem faceRecognition_store_error (env : Env) (w : World) (req : Request)
    (f1 f2 : FileHeader) (b : Bool) (id e : String)
    (h1 : formFile req "file1" = some f1) (h2 : formFile req "file2" = some f2)
    (hc : (callMicroService1 env f1 f2).1 = .ok b) (hid : env.uuidNew = some id)
    (hup : (uploadFilesToBlobStorage env w [f1, f2]
      (newTransaction id env.timeNow b f1 f2)).1 = none)
    (hst : (storeTransaction env
      (uploadFilesToBlobStorage env w [f1, f2] (newTransaction id env.timeNow b f1 f2)).2.1
      (newTransaction id env.timeNow b f1 f2)).1 = some e) :
    faceRecognition env w req =
      (⟨500, [("error", .str "error storing transaction")]⟩,
        (storeTransaction env
          (uploadFilesToBlobStorage env w [f1, f2] (newTransaction id env.timeNow b f1 f2)).2.1
          (newTransaction id env.timeNow b f1 f2)).2.1,
        (callMicroService1 env f1 f2).2 ++
          (uploadFilesToBlobStorage env w [f1, f2] (newTransaction id env.timeNow b f1 f2)).2.2 ++
          (storeTransaction env
            (uploadFilesToBlobStorage env w [f1, f2] (newTransaction id env.timeNow b f1 f2)).2.1
            (newTransaction id env.timeNow b f1 f2)).2.2) := by
  rcases hcm : callMicroService1 env f1 f2 with ⟨r, t1⟩
  rw [hcm] at hc
  simp only at hc
  subst hc
  rcases hu : uploadFilesToBlobStorage env w [f1, f2] (newTransaction id env.timeNow b f1 f2)
    with ⟨r2, w2, t2⟩
  rw [hu] at hup hst
  simp only at hup hst
  subst hup
  rcases hs : storeTransaction env w2 (newTransaction id env.timeNow b f1 f2) with ⟨r3, w3, t3⟩
  rw [hs] at hst
  simp only at hst
  subst hst
  simp only [faceRecognition, h1, h2, hcm, hid, hu, hs]

theorem faceRecognition_success (env : Env) (w : World) (req : Request)
    (f1 f2 : FileHeader) (b : Bool) (id : String)
    (h1 : formFile req "file1" = some f1) (h2 : formFile req "file2" = some f2)
    (hc : (callMicroService1 env f1 f2).1 = .ok b) (hid : env.uuidNew = some id)
    (hup : (uploadFilesToBlobStorage env w [f1, f2]
      (newTransaction id env.timeNow b f1 f2)).1 = none)
    (hst : (storeTransaction env
      (uploadFilesToBlobStorage env w [f1, f2] (newTransaction id env.timeNow b f1 f2)).2.1
      (newTransaction id env.timeNow b f1 f2)).1 = none) :
    faceRecognition env w req =
      (⟨200, [("message", .str "Transaction recorded and saved images"), ("matched", .bool b)]⟩,
        (storeTransaction env
          (uploadFilesToBlobStorage env w [f1, f2] (newTransaction id env.timeNow b f1 f2)).2.1
          (newTransaction id env.timeNow b f1 f2)).2.1,
        (callMicroService1 env f1 f2).2 ++
          (uploadFilesToBlobStorage env w [f1, f2] (newTransaction id env.timeNow b f1 f2)).2.2 ++
          (storeTransaction env
            (uploadFilesToBlobStorage env w [f1, f2] (newTransaction id env.timeNow b f1 f2)).2.1
            (newTransaction id env.timeNow b f1 f2)).2.2) := by
  rcases hcm : callMicroService1 env f1 f2 with ⟨r, t1⟩
  rw [hcm] at hc
  simp only at hc
  subst hc
  rcases hu : uploadFilesToBlobStorage env w [f1, f2] (newTransaction id env.timeNow b f1 f2)
    with ⟨r2, w2, t2⟩
  rw [hu] at hup hst
  simp only at hup hst
  subst hup
  rcases hs : storeTransaction env w2 (newTransaction id env.timeNow b f1 f2) with ⟨r3, w3, t3⟩
  rw [hs] at hst
  simp only at hst
  subst hst
  simp only [faceRecognition, h1, h2, hcm, hid, hu, hs]

theorem faceRecognition_trace (env : Env) (w : World) (req : Request)
    (f1 f2 : FileHeader) (b : Bool) (id : String)
    (h1 : formFile req "file1" = some f1) (h2 : formFile req "file2" = some f2)
    (hc : (callMicroService1 env f1 f2).1 = .ok b) (hid : env.uuidNew = some id) :
    (faceRecognition env w req).2.2 =
      sentEvent env f1 f2 true ::
        ((uploadFilesToBlobStorage env w [f1, f2] (newTransaction id env.timeNow b f1 f2)).2.2 ++
          match (uploadFilesToBlobStorage env w [f1, f2]
              (newTransaction id env.timeNow b f1 f2)).1 with
          | none =>
            (storeTransaction env
              (uploadFilesToBlobStorage env w [f1, f2] (newTransaction id env.timeNow b f1 f2)).2.1
              (newTransaction id env.timeNow b f1 f2)).2.2
          | some _ => []) := by
  rcases hu : (uploadFilesToBlobStorage env w [f1, f2]
      (newTransaction id env.timeNow b f1 f2)).1 with _ | e
  · rcases hs : (storeTransaction env
        (uploadFilesToBlobStorage env w [f1, f2] (newTransaction id env.timeNow b f1 f2)).2.1
        (newTransaction id env.timeNow b f1 f2)).1 with _ | e
    · rw [faceRecognition_success env w req f1 f2 b id h1 h2 hc hid hu hs,
        callMicroService1_ok_trace env f1 f2 b hc]
      simp
    · rw [faceRecognition_store_error env w req f1 f2 b id e h1 h2 hc hid hu hs,
        callMicroService1_ok_trace env f1 f2 b hc]
      simp
  · rw [faceRecognition_upload_error env w req f1 f2 b id e h1 h2 hc hid hu,
      callMicroService1_ok_trace env f1 f2 b hc]
    simp

/-! ## Blobs after a successful request -/

theorem putBlob_putBlob_same (key : String) (b1 b2 : Bytes) (blobs : List (String × Bytes)) :
    putBlob key b2 (putBlob key b1 blobs) = putBlob key b2 blobs := by
  simp [putBlob, List.filter_filter]

theorem success_blobs (env : Env) (w : World) (req : Request)
    (f1 f2 : FileHeader) (b : Bool) (id : String)
    (h1 : formFile req "file1" = some f1) (h2 : formFile req "file2" = some f2)
    (hc : (callMicroService1 env f1 f2).1 = .ok b) (hid : env.uuidNew = some id)
    (hup : (uploadFilesToBlobStorage env w [f1, f2]
      (newTransaction id env.timeNow b f1 f2)).1 = none)
    (hst : (storeTransaction env
      (uploadFilesToBlobStorage env w [f1, f2] (newTransaction id env.timeNow b f1 f2)).2.1
      (newTransaction id env.timeNow b f1 f2)).1 = none) :
    (faceRecognition env w req).2.1.blobs =
      putBlob (blobKey (newTransaction id env.timeNow b f1 f2) f2) f2.content
        (putBlob (blobKey (newTransaction id env.timeNow b f1 f2) f1) f1.content w.blobs) := by
  rw [faceRecognition_success env w req f1 f2 b id h1 h2 hc hid hup hst,
    storeTransaction_ok env _ _ hst, upload_two_ok env w f1 f2 _ hup]

/-- With distinct file names a successful request leaves one blob per file. -/
theorem two_blobs_of_distinct_names (env : Env) (w : World) (req : Request)
    (f1 f2 : FileHeader) (b : Bool) (id : String)
    (h1 : formFile req "file1" = some f1) (h2 : formFile req "file2" = some f2)
    (hc : (callMicroService1 env f1 f2).1 = .ok b) (hid : env.uuidNew = some id)
    (hup : (uploadFilesToBlobStorage env w [f1, f2]
      (newTransaction id env.timeNow b f1 f2)).1 = none)
    (hst : (storeTransaction env
      (uploadFilesToBlobStorage env w [f1, f2] (newTransaction id env.timeNow b f1 f2)).2.1
      (newTransaction id env.timeNow b f1 f2)).1 = none)
    (hne : f1.Filename ≠ f2.Filename) :
    getBlob (id ++ "_" ++ f1.Filename) (faceRecognition env w req).2.1.blobs = some f1.content ∧
    getBlob (id ++ "_" ++ f2.Filename) (faceRecognition env w req).2.1.blobs = some f2.content := by
  rw [success_blobs env w req f1 f2 b id h1 h2 hc hid hup hst]
  have hk := blobKey_ne_of_filename_ne (newTransaction id env.timeNow b f1 f2) f1 f2 hne
  constructor
  · show getBlob (blobKey (newTransaction id env.timeNow b f1 f2) f1) _ = _
    rw [getBlob_putBlob_of_ne _ _ _ _ hk]
    exact getBlob_putBlob_self _ _ _
  · exact getBlob_putBlob_self _ _ _

/-- With equal file names a successful request leaves the container as if only
`file2` had been uploaded. -/
theorem one_blob_of_equal_names (env : Env) (w : World) (req : Request)
    (f1 f2 : FileHeader) (b : Bool) (id : String)
    (h1 : formFile req "file1" = some f1) (h2 : formFile req "file2" = some f2)
    (hc : (callMicroService1 env f1 f2).1 = .ok b) (hid : env.uuidNew = some id)
    (hup : (uploadFilesToBlobStorage env w [f1, f2]
      (newTransaction id env.timeNow b f1 f2)).1 = none)
    (hst : (storeTransaction env
      (uploadFilesToBlobStorage env w [f1, f2] (newTransaction id env.timeNow b f1 f2)).2.1
      (newTransaction id env.timeNow b f1 f2)).1 = none)
    (heq : f1.Filename = f2.Filename) :
    (faceRecognition env w req).2.1.blobs =
      putBlob (id ++ "_" ++ f2.Filename) f2.content w.blobs := by
  rw [success_blobs env w req f1 f2 b id h1 h2 hc hid hup hst]
  simp only [blobKey, newTransaction, heq]
  exact putBlob_putBlob_same _ _ _ _

/-! ## Properties of the request handler -/

/-- Claim C1. A request in which the `file1` part, the `file2` part or both are
missing is answered with status 400, makes no outbound call (the trace is empty)
and leaves the blob container and the document store as they were. -/
theorem missing_part_rejected (env : Env) (w : World) (req : Request)
    (h : formFile req "file1" = none ∨ formFile req "file2" = none) :
    (faceRecognition env w req).1.status = 400 ∧
    (faceRecognition env w req).2.2 = [] ∧
    (faceRecognition env w req).2.1 = w := by
  unfold faceRecognition
  rcases h with h | h
  · simp [h]
  · cases h1 : formFile req "file1" <;> simp [h]

/-- Instance of C1: a request carrying only `file1`. -/
theorem missing_part_rejected_witness :
    (faceRecognition (envOk docTrue "u1") w0 reqOnlyFile1).1.status = 400 ∧
    (faceRecognition (envOk docTrue "u1") w0 reqOnlyFile1).2.2 = [] ∧
    (faceRecognition (envOk docTrue "u1") w0 reqOnlyFile1).2.1 = w0 :=
  missing_part_rejected (envOk docTrue "u1") w0 reqOnlyFile1 (Or.inr (by decide))

/-- Claim C2. When both parts are present and the comparison, both uploads and
the insert succeed, the response is 200 with `matched` equal to the boolean
returned by `callMicroService1`, and the one insert of the request carries the
transaction built from that boolean, whose `Matched` field is that boolean. -/
theorem matched_is_reported (env : Env) (w : World) (req : Request)
    (f1 f2 : FileHeader) (b : Bool) (id : String)
    (h1 : formFile req "file1" = some f1) (h2 : formFile req "file2" = some f2)
    (hc : (callMicroService1 env f1 f2).1 = .ok b) (hid : env.uuidNew = some id)
    (hup : (uploadFilesToBlobStorage env w [f1, f2]
      (newTransaction id env.timeNow b f1 f2)).1 = none)
    (hst : (storeTransaction env
      (uploadFilesToBlobStorage env w [f1, f2] (newTransaction id env.timeNow b f1 f2)).2.1
      (newTransaction id env.timeNow b f1 f2)).1 = none) :
    (faceRecognition env w req).1 =
      ⟨200, [("message", .str "Transaction recorded and saved images"), ("matched", .bool b)]⟩ ∧
    (faceRecognition env w req).2.2.filter Event.isInsert =
      [.insertOne (newTransaction id env.timeNow b f1 f2) true] ∧
    (faceRecognition env w req).2.1.records =
      w.records ++ [newTransaction id env.timeNow b f1 f2] ∧
    (newTransaction id env.timeNow b f1 f2).Matched = b := by
  rw [faceRecognition_success env w req f1 f2 b id h1 h2 hc hid hup hst]
  rw [storeTransaction_ok env _ _ hst, upload_two_ok env w f1 f2 _ hup,
    callMicroService1_ok_trace env f1 f2 b hc]
  refine ⟨rfl, ?_, rfl, rfl⟩
  simp [List.filter, Event.isInsert, sentEvent]

/-- Instance of C2: both files present, every call succeeds, the service says `true`. -/
theorem matched_is_reported_witness :
    (faceRecognition (envOk docTrue "u1") w0 reqBoth).1 =
      ⟨200, [("message", .str "Transaction recorded and saved images"), ("matched", .bool true)]⟩ ∧
    (faceRecognition (envOk docTrue "u1") w0 reqBoth).2.2.filter Event.isInsert =
      [.insertOne (newTransaction "u1" (envOk docTrue "u1").timeNow true cat cat2) true] ∧
    (faceRecognition (envOk docTrue "u1") w0 reqBoth).2.1.records =
      w0.records ++ [newTransaction "u1" (envOk docTrue "u1").timeNow true cat cat2] ∧
    (newTransaction "u1" (envOk docTrue "u1").timeNow true cat cat2).Matched = true :=
  matched_is_reported (envOk docTrue "u1") w0 reqBoth cat cat2 true "u1" (by decide) (by decide)
    rfl rfl rfl rfl

/-- Claim C3. Let the comparison service answer with some body.  If that body
does not decode to a map whose `matched` entry is a boolean, `callMicroService1`
returns an error, and `faceRecognition` answers 500 having made no call besides
the comparison call and having changed neither store; when the body decodes to a
map without a boolean `matched` the error is "distance not found in response".
Conversely, when the decoded map has a boolean `matched`, `callMicroService1`
returns exactly that boolean. -/
theorem matched_field_required (env : Env) (w : World) (req : Request) (f1 f2 : FileHeader)
    (responseBody : Bytes)
    (h1 : formFile req "file1" = some f1) (h2 : formFile req "file2" = some f2)
    (hr : receivesBody env responseBody) :
    ((∀ response b, jsonUnmarshal env responseBody = .ok response →
        response.get "matched" ≠ some (.bool b)) →
      (∃ e, (callMicroService1 env f1 f2).1 = .error e) ∧
      (faceRecognition env w req).1.status = 500 ∧
      (faceRecognition env w req).2.1 = w ∧
      (faceRecognition env w req).2.2 = [sentEvent env f1 f2 true]) ∧
    (∀ response, jsonUnmarshal env responseBody = .ok response →
      (∀ b, response.get "matched" ≠ some (.bool b)) →
      (callMicroService1 env f1 f2).1 = .error "distance not found in response") ∧
    (∀ response b, jsonUnmarshal env responseBody = .ok response →
      response.get "matched" = some (.bool b) → (callMicroService1 env f1 f2).1 = .ok b) := by
  have hcm := callMicroService1_body env f1 f2 responseBody hr
  refine ⟨?_, ?_, ?_⟩
  · intro hno
    have he : ∃ e, (callMicroService1 env f1 f2).1 = .error e := by
      rw [hcm]
      rcases hj : jsonUnmarshal env responseBody with err | response
      · exact ⟨err, rfl⟩
      · simp only
        split
        · next matched hm => exact absurd hm (hno response matched hj)
        · exact ⟨_, rfl⟩
    obtain ⟨e, he⟩ := he
    refine ⟨⟨e, he⟩, ?_⟩
    rw [faceRecognition_compare_error env w req f1 f2 e h1 h2 he, hcm]
    exact ⟨rfl, rfl, rfl⟩
  · intro response hj hno
    rw [hcm, hj]
    show (match response.get "matched" with
      | some (.bool matched) => Except.ok matched
      | _ => Except.error "distance not found in response") = _
    split
    · next matched hm => exact absurd hm (hno matched)
    · rfl
  · intro response b hj hb
    rw [hcm, hj]
    simp only [hb]

/-- Instance of C3: the answer `matched: 1` is refused, the answer `matched: true`
is returned as `true`. -/
theorem matched_field_required_witness :
    ((∃ e, (callMicroService1 (envOk docNumber "u1") cat cat2).1 = .error e) ∧
      (faceRecognition (envOk docNumber "u1") w0 reqBoth).1.status = 500 ∧
      (faceRecognition (envOk docNumber "u1") w0 reqBoth).2.1 = w0 ∧
      (faceRecognition (envOk docNumber "u1") w0 reqBoth).2.2 =
        [sentEvent (envOk docNumber "u1") cat cat2 true]) ∧
    (callMicroService1 (envOk docNumber "u1") cat cat2).1 =
      .error "distance not found in response" ∧
    (callMicroService1 (envOk docTrue "u1") cat cat2).1 = .ok true :=
  ⟨(matched_field_required (envOk docNumber "u1") w0 reqBoth cat cat2 [1] (by decide) (by decide)
      ⟨rfl, rfl, rfl, rfl, rfl, rfl, rfl, rfl, rfl⟩).1
      (by
        intro response b hj h
        have hresp : response = [("matched", .number "1")] := by
          simpa [jsonUnmarshal, envOk, docNumber, GoMap.set] using hj.symm
        subst hresp
        simp [GoMap.get, List.lookup] at h),
   (matched_field_required (envOk docNumber "u1") w0 reqBoth cat cat2 [1] (by decide) (by decide)
      ⟨rfl, rfl, rfl, rfl, rfl, rfl, rfl, rfl, rfl⟩).2.1 [("matched", .number "1")] rfl
      (by
        intro b h
        simp [GoMap.get, List.lookup] at h),
   (matched_field_required (envOk docTrue "u1") w0 reqBoth cat cat2 [1] (by decide) (by decide)
      ⟨rfl, rfl, rfl, rfl, rfl, rfl, rfl, rfl, rfl⟩).2.2 [("matched", .bool true)] true rfl rfl⟩

/-- Claim C4. Let the comparison succeed, the container be available, and the
upload of the file with index `k` (0 or 1) fail, at `Open` or at the put, after
the earlier files were uploaded.  Then `uploadFilesToBlobStorage` returns that
error and attempts no put beyond file `k`; `faceRecognition` answers 500, makes
no call to the document store and inserts no record; and the container holds the
blobs of the files before `k`, each under its key with its bytes. -/
theorem upload_failure_aborts (env : Env) (w : World) (req : Request)
    (f1 f2 : FileHeader) (b : Bool) (id : String) (tx : Transaction) (k : Nat)
    (h1 : formFile req "file1" = some f1) (h2 : formFile req "file2" = some f2)
    (hc : (callMicroService1 env f1 f2).1 = .ok b) (hid : env.uuidNew = some id)
    (htx : tx = newTransaction id env.timeNow b f1 f2)
    (hclient : env.newBasicClient = none) (hcont : env.createIfNotExists = none)
    (hk : k < 2)
    (hprev : ∀ i, i < k → env.blobOpen i = none ∧ env.createBlockBlob i = none)
    (hfail : env.blobOpen k ≠ none ∨ env.createBlockBlob k ≠ none) :
    (uploadFilesToBlobStorage env w [f1, f2] tx).1 ≠ none ∧
    (uploadFilesToBlobStorage env w [f1, f2] tx).1 = (env.blobOpen k <|> env.createBlockBlob k) ∧
    (putKeys (uploadFilesToBlobStorage env w [f1, f2] tx).2.2).length ≤ k + 1 ∧
    putKeys (uploadFilesToBlobStorage env w [f1, f2] tx).2.2 <+: [blobKey tx f1, blobKey tx f2] ∧
    (faceRecognition env w req).1 = ⟨500, [("error", .str "failed to save images")]⟩ ∧
    (∀ e ∈ (faceRecognition env w req).2.2, e.isMongo = false) ∧
    putKeys (faceRecognition env w req).2.2 =
      putKeys (uploadFilesToBlobStorage env w [f1, f2] tx).2.2 ∧
    (faceRecognition env w req).2.1.records = w.records ∧
    (faceRecognition env w req).2.1.blobs =
      ([f1, f2].take k).foldl (fun s f => putBlob (blobKey tx f) f.content s) w.blobs ∧
    (∀ f ∈ [f1, f2].take k,
      getBlob (blobKey tx f) (faceRecognition env w req).2.1.blobs = some f.content) := by
  subst htx
  have hpre := putKeys_upload_two env w f1 f2 (newTransaction id env.timeNow b f1 f2)
  have key : ∃ e, (uploadFilesToBlobStorage env w [f1, f2]
        (newTransaction id env.timeNow b f1 f2)).1 = some e ∧
      some e = (env.blobOpen k <|> env.createBlockBlob k) ∧
      (putKeys (uploadFilesToBlobStorage env w [f1, f2]
        (newTransaction id env.timeNow b f1 f2)).2.2).length ≤ k + 1 ∧
      (∀ e ∈ (uploadFilesToBlobStorage env w [f1, f2]
        (newTransaction id env.timeNow b f1 f2)).2.2, e.isMongo = false) ∧
      (uploadFilesToBlobStorage env w [f1, f2]
        (newTransaction id env.timeNow b f1 f2)).2.1.records = w.records ∧
      (uploadFilesToBlobStorage env w [f1, f2]
        (newTransaction id env.timeNow b f1 f2)).2.1.blobs =
        ([f1, f2].take k).foldl
          (fun s f => putBlob (blobKey (newTransaction id env.timeNow b f1 f2) f) f.content s)
          w.blobs := by
    interval_cases k
    · rcases ho : env.blobOpen 0 with _ | e
      · rcases hp : env.createBlockBlob 0 with _ | e
        · simp [ho, hp] at hfail
        · exact ⟨e, by
            simp [uploadFilesToBlobStorage, uploadLoop, hclient, hcont, ho, hp, putKeys,
              Event.isMongo]⟩
      · exact ⟨e, by
          simp [uploadFilesToBlobStorage, uploadLoop, hclient, hcont, ho, putKeys,
            Event.isMongo]⟩
    · obtain ⟨ho0, hp0⟩ := hprev 0 (by decide)
      rcases ho : env.blobOpen 1 with _ | e
      · rcases hp : env.createBlockBlob 1 with _ | e
        · simp [ho, hp] at hfail
        · exact ⟨e, by
            simp [uploadFilesToBlobStorage, uploadLoop, hclient, hcont, ho, hp, ho0, hp0, putKeys,
              Event.isMongo, blobKey]⟩
      · exact ⟨e, by
          simp [uploadFilesToBlobStorage, uploadLoop, hclient, hcont, ho, ho0, hp0, putKeys,
            Event.isMongo, blobKey]⟩
  obtain ⟨e, hu, hor, hlen, hmongo, hrec, hblobs⟩ := key
  have hfr := faceRecognition_upload_error env w req f1 f2 b id e h1 h2 hc hid hu
  refine ⟨by simp [hu], by rw [hu, hor], hlen, hpre, by rw [hfr], ?_, ?_, by rw [hfr]; exact hrec,
    by rw [hfr]; exact hblobs, ?_⟩
  · rw [hfr, callMicroService1_ok_trace env f1 f2 b hc]
    intro ev hev
    simp only [List.singleton_append, List.mem_cons] at hev
    rcases hev with hev | hev
    · subst hev
      rfl
    · exact hmongo ev hev
  · rw [hfr, callMicroService1_ok_trace env f1 f2 b hc]
    simp [putKeys, sentEvent]
  · rw [hfr]
    simp only [hblobs]
    have hk2 : k = 0 ∨ k = 1 := by omega
    rcases hk2 with rfl | rfl
    · simp
    · simp [getBlob_putBlob_self]

/-- Instance of C4: the put of the second file fails after the first was stored. -/
theorem upload_failure_aborts_witness :
    (uploadFilesToBlobStorage envSecondPutFails w0 [cat, cat2] tx1).1 ≠ none ∧
    (uploadFilesToBlobStorage envSecondPutFails w0 [cat, cat2] tx1).1 =
      (envSecondPutFails.blobOpen 1 <|> envSecondPutFails.createBlockBlob 1) ∧
    (putKeys (uploadFilesToBlobStorage envSecondPutFails w0 [cat, cat2] tx1).2.2).length ≤ 1 + 1 ∧
    putKeys (uploadFilesToBlobStorage envSecondPutFails w0 [cat, cat2] tx1).2.2 <+:
      [blobKey tx1 cat, blobKey tx1 cat2] ∧
    (faceRecognition envSecondPutFails w0 reqBoth).1 =
      ⟨500, [("error", .str "failed to save images")]⟩ ∧
    (∀ e ∈ (faceRecognition envSecondPutFails w0 reqBoth).2.2, e.isMongo = false) ∧
    putKeys (faceRecognition envSecondPutFails w0 reqBoth).2.2 =
      putKeys (uploadFilesToBlobStorage envSecondPutFails w0 [cat, cat2] tx1).2.2 ∧
    (faceRecognition envSecondPutFails w0 reqBoth).2.1.records = w0.records ∧
    (faceRecognition envSecondPutFails w0 reqBoth).2.1.blobs =
      ([cat, cat2].take 1).foldl (fun s f => putBlob (blobKey tx1 f) f.content s) w0.blobs ∧
    (∀ f ∈ [cat, cat2].take 1,
      getBlob (blobKey tx1 f) (faceRecognition envSecondPutFails w0 reqBoth).2.1.blobs =
        some f.content) :=
  upload_failure_aborts envSecondPutFails w0 reqBoth cat cat2 true "u1" tx1 1
    (by decide) (by decide) rfl rfl rfl rfl rfl (by decide)
    (fun i hi => by
      have h0 : i = 0 := by omega
      subst h0
      exact ⟨rfl, rfl⟩)
    (Or.inr (by decide))

/-- Claim C5. When a request reaches record construction with generated
identifier `id`, the transaction has `ID = id`, `File1 = id_name1` and
`File2 = id_name2`; the keys `uploadFilesToBlobStorage` puts are, in order, an
initial part of `File1, File2` and are exactly these two when the upload
succeeds; the handler puts no other key, and every insert carries this
transaction. -/
theorem record_and_keys_share_id (env : Env) (w : World) (req : Request)
    (f1 f2 : FileHeader) (b : Bool) (id : String) (tx : Transaction)
    (h1 : formFile req "file1" = some f1) (h2 : formFile req "file2" = some f2)
    (hc : (callMicroService1 env f1 f2).1 = .ok b) (hid : env.uuidNew = some id)
    (htx : tx = newTransaction id env.timeNow b f1 f2) :
    tx.ID = id ∧ tx.File1 = id ++ "_" ++ f1.Filename ∧ tx.File2 = id ++ "_" ++ f2.Filename ∧
    putKeys (uploadFilesToBlobStorage env w [f1, f2] tx).2.2 <+: [tx.File1, tx.File2] ∧
    ((uploadFilesToBlobStorage env w [f1, f2] tx).1 = none →
      putKeys (uploadFilesToBlobStorage env w [f1, f2] tx).2.2 = [tx.File1, tx.File2]) ∧
    putKeys (faceRecognition env w req).2.2 =
      putKeys (uploadFilesToBlobStorage env w [f1, f2] tx).2.2 ∧
    (∀ t ok, Event.insertOne t ok ∈ (faceRecognition env w req).2.2 → t = tx) := by
  subst htx
  refine ⟨rfl, rfl, rfl, putKeys_upload_two env w f1 f2 _, ?_, ?_, ?_⟩
  · intro hu
    rw [upload_two_ok env w f1 f2 _ hu]
    rfl
  · rw [faceRecognition_trace env w req f1 f2 b id h1 h2 hc hid]
    rcases hu : (uploadFilesToBlobStorage env w [f1, f2]
        (newTransaction id env.timeNow b f1 f2)).1 with _ | e
    · rcases hs : (storeTransaction env
          (uploadFilesToBlobStorage env w [f1, f2] (newTransaction id env.timeNow b f1 f2)).2.1
          (newTransaction id env.timeNow b f1 f2)).1 with _ | e
      · rw [storeTransaction_ok env _ _ hs, upload_two_ok env w f1 f2 _ hu]
        simp [putKeys, sentEvent]
      · rcases (storeTransaction_error env _ _ e hs).2 with h | h <;>
          rw [h, upload_two_ok env w f1 f2 _ hu] <;> simp [putKeys, sentEvent]
    · simp [putKeys, sentEvent]
  · intro t ok hmem
    rw [faceRecognition_trace env w req f1 f2 b id h1 h2 hc hid] at hmem
    rcases hu : (uploadFilesToBlobStorage env w [f1, f2]
        (newTransaction id env.timeNow b f1 f2)).1 with _ | e
    · rw [hu] at hmem
      rcases hs : (storeTransaction env
          (uploadFilesToBlobStorage env w [f1, f2] (newTransaction id env.timeNow b f1 f2)).2.1
          (newTransaction id env.timeNow b f1 f2)).1 with _ | e
      · rw [storeTransaction_ok env _ _ hs, upload_two_ok env w f1 f2 _ hu] at hmem
        simp [sentEvent] at hmem
        exact hmem.1
      · rcases (storeTransaction_error env _ _ e hs).2 with h | h <;>
          rw [h, upload_two_ok env w f1 f2 _ hu] at hmem <;> simp [sentEvent] at hmem
        exact hmem.1
    · rw [hu] at hmem
      rcases upload_two_error_shape env w f1 f2 _ e hu with h | h | h | h | h | h <;>
        rw [h] at hmem <;> simp [sentEvent] at hmem

/-- Instance of C5: the successful request of `reqBoth` with identifier `u1`. -/
theorem record_and_keys_share_id_witness :
    tx1.ID = "u1" ∧ tx1.File1 = "u1" ++ "_" ++ cat.Filename ∧
    tx1.File2 = "u1" ++ "_" ++ cat2.Filename ∧
    putKeys (uploadFilesToBlobStorage (envOk docTrue "u1") w0 [cat, cat2] tx1).2.2 <+:
      [tx1.File1, tx1.File2] ∧
    putKeys (uploadFilesToBlobStorage (envOk docTrue "u1") w0 [cat, cat2] tx1).2.2 =
      [tx1.File1, tx1.File2] ∧
    putKeys (faceRecognition (envOk docTrue "u1") w0 reqBoth).2.2 =
      putKeys (uploadFilesToBlobStorage (envOk docTrue "u1") w0 [cat, cat2] tx1).2.2 ∧
    tx1 = tx1 :=
  have h := record_and_keys_share_id (envOk docTrue "u1") w0 reqBoth cat cat2 true "u1" tx1
    (by decide) (by decide) rfl rfl rfl
  ⟨h.1, h.2.1, h.2.2.1, h.2.2.2.1, h.2.2.2.2.1 rfl, h.2.2.2.2.2.1,
    h.2.2.2.2.2.2 tx1 true (by decide)⟩

/-- Claim C6. The answer to a missing part names that part: without `file1` the
response is 400 with error "file1 is required"; with `file1` but without
`file2` it is 400 with error "file2 is required". -/
theorem missing_part_named (env : Env) (w : World) (req : Request) :
    (formFile req "file1" = none →
      (faceRecognition env w req).1 = ⟨400, [("error", .str "file1 is required")]⟩) ∧
    (∀ f1, formFile req "file1" = some f1 → formFile req "file2" = none →
      (faceRecognition env w req).1 = ⟨400, [("error", .str "file2 is required")]⟩) := by
  unfold faceRecognition
  constructor
  · intro h
    simp [h]
  · intro f1 h1 h2
    simp [h1, h2]

/-- Instance of C6: one request without `file1`, one with `file1` only. -/
theorem missing_part_named_witness :
    (faceRecognition (envOk docTrue "u1") w0 reqOnlyFile2).1 =
      ⟨400, [("error", .str "file1 is required")]⟩ ∧
    (faceRecognition (envOk docTrue "u1") w0 reqOnlyFile1).1 =
      ⟨400, [("error", .str "file2 is required")]⟩ :=
  ⟨(missing_part_named (envOk docTrue "u1") w0 reqOnlyFile2).1 (by decide),
   (missing_part_named (envOk docTrue "u1") w0 reqOnlyFile1).2 cat (by decide) (by decide)⟩

/-- Claim C7. In the trace of any request, an insert occurs only in a trace of
the exact form: comparison call, container creation, put of file1, put of
file2 (all successful), connect, insert, disconnect, with the comparison having
returned the boolean the record carries.  Every call that is followed by another
call succeeded (the closing disconnect apart), and any call other than the
comparison call is made only after `callMicroService1` returned without error. -/
theorem insert_after_uploads (env : Env) (w : World) (req : Request) :
    (∀ tx ok, Event.insertOne tx ok ∈ (faceRecognition env w req).2.2 →
      ∃ f1 f2, formFile req "file1" = some f1 ∧ formFile req "file2" = some f2 ∧
        (callMicroService1 env f1 f2).1 = .ok tx.Matched ∧
        (faceRecognition env w req).2.2 =
          [sentEvent env f1 f2 true,
           .createContainer env.cfg.containerName true,
           .putBlob tx.File1 f1.content true,
           .putBlob tx.File2 f2.content true,
           .mongoConnect env.cfg.mongoUrl true,
           .insertOne tx ok,
           .mongoDisconnect]) ∧
    List.Chain' (fun e e' => e.ok = true ∨ e' = Event.mongoDisconnect)
      (faceRecognition env w req).2.2 ∧
    (∀ e ∈ (faceRecognition env w req).2.2, e.isCallService1 = false →
      ∃ f1 f2 b, formFile req "file1" = some f1 ∧ formFile req "file2" = some f2 ∧
        (callMicroService1 env f1 f2).1 = .ok b) := by
  rcases h1 : formFile req "file1" with _ | f1
  · have htr : (faceRecognition env w req).2.2 = [] := by simp [faceRecognition, h1]
    rw [htr]
    simp
  rcases h2 : formFile req "file2" with _ | f2
  · have htr : (faceRecognition env w req).2.2 = [] := by simp [faceRecognition, h1, h2]
    rw [htr]
    simp
  rcases hc : (callMicroService1 env f1 f2).1 with e | b
  · have htr := faceRecognition_compare_error env w req f1 f2 e h1 h2 hc
    rcases callMicroService1_error_trace env f1 f2 e hc with h | h | h <;> rw [htr, h] <;>
      simp [sentEvent, Event.ok, Event.isCallService1]
  rcases hid : env.uuidNew with _ | id
  · rw [faceRecognition_panic env w req f1 f2 b h1 h2 hc hid,
      callMicroService1_ok_trace env f1 f2 b hc]
    simp [sentEvent, Event.ok, Event.isCallService1]
  have htr := faceRecognition_trace env w req f1 f2 b id h1 h2 hc hid
  rcases hu : (uploadFilesToBlobStorage env w [f1, f2]
      (newTransaction id env.timeNow b f1 f2)).1 with _ | e
  · rw [hu] at htr
    rcases hs : (storeTransaction env
        (uploadFilesToBlobStorage env w [f1, f2] (newTransaction id env.timeNow b f1 f2)).2.1
        (newTransaction id env.timeNow b f1 f2)).1 with _ | e
    · rw [storeTransaction_ok env _ _ hs, upload_two_ok env w f1 f2 _ hu] at htr
      rw [htr]
      simp [sentEvent, Event.ok, Event.isCallService1, hc, blobKey, newTransaction]
    · rcases (storeTransaction_error env _ _ e hs).2 with h | h <;>
        rw [h, upload_two_ok env w f1 f2 _ hu] at htr <;> rw [htr] <;>
        simp [sentEvent, Event.ok, Event.isCallService1, hc, blobKey, newTransaction]
  · rw [hu] at htr
    rcases upload_two_error_shape env w f1 f2 _ e hu with h | h | h | h | h | h <;>
      rw [h] at htr <;> rw [htr] <;>
      simp [sentEvent, Event.ok, Event.isCallService1, hc, blobKey, newTransaction]

/-- Instance of C7: the trace of the successful request of `reqBoth`. -/
theorem insert_after_uploads_witness :
    (∃ f1 f2, formFile reqBoth "file1" = some f1 ∧ formFile reqBoth "file2" = some f2 ∧
        (callMicroService1 (envOk docTrue "u1") f1 f2).1 = .ok tx1.Matched ∧
        (faceRecognition (envOk docTrue "u1") w0 reqBoth).2.2 =
          [sentEvent (envOk docTrue "u1") f1 f2 true,
           .createContainer (envOk docTrue "u1").cfg.containerName true,
           .putBlob tx1.File1 f1.content true,
           .putBlob tx1.File2 f2.content true,
           .mongoConnect (envOk docTrue "u1").cfg.mongoUrl true,
           .insertOne tx1 true,
           .mongoDisconnect]) ∧
    (∃ f1 f2 b, formFile reqBoth "file1" = some f1 ∧ formFile reqBoth "file2" = some f2 ∧
        (callMicroService1 (envOk docTrue "u1") f1 f2).1 = .ok b) :=
  ⟨(insert_after_uploads (envOk docTrue "u1") w0 reqBoth).1 tx1 true (by decide),
   (insert_after_uploads (envOk docTrue "u1") w0 reqBoth).2.2 (.insertOne tx1 true) (by decide)
     rfl⟩

/-- Claim C8. For the same two files and distinct identifiers `id` and `id'`,
the storage keys differ: `id_name1` is not `id'_name1` and `id_name2` is not
`id'_name2`.  When the identifiers have the same length, as the textual form of
a UUID has, no key put by one upload is put by the other, so neither request
overwrites a blob of the other. -/
theorem storage_keys_distinct (env env' : Env) (w w' : World) (id id' : String) (t t' : Nat)
    (b b' : Bool) (f1 f2 : FileHeader) (h : id ≠ id') :
    (newTransaction id t b f1 f2).File1 ≠ (newTransaction id' t' b' f1 f2).File1 ∧
    (newTransaction id t b f1 f2).File2 ≠ (newTransaction id' t' b' f1 f2).File2 ∧
    (id.length = id'.length →
      ∀ k ∈ putKeys (uploadFilesToBlobStorage env w [f1, f2] (newTransaction id t b f1 f2)).2.2,
        k ∉ putKeys
          (uploadFilesToBlobStorage env' w' [f1, f2] (newTransaction id' t' b' f1 f2)).2.2) := by
  refine ⟨fun hk => h (key_prefix_cancel id id' _ hk), fun hk => h (key_prefix_cancel id id' _ hk),
    ?_⟩
  intro hl k hk hk'
  have p1 := (putKeys_upload_two env w f1 f2 (newTransaction id t b f1 f2)).subset hk
  have p2 := (putKeys_upload_two env' w' f1 f2 (newTransaction id' t' b' f1 f2)).subset hk'
  simp only [blobKey, newTransaction, List.mem_cons, List.mem_singleton, List.not_mem_nil,
    or_false] at p1 p2
  rcases p1 with p1 | p1 <;> rcases p2 with p2 | p2 <;>
    exact h (key_cross_cancel id id' _ _ hl (p1.symm.trans p2))

/-- Instance of C8: the identifiers `u1` and `u2` for the files `cat`, `cat2`. -/
theorem storage_keys_distinct_witness :
    (newTransaction "u1" 7 true cat cat2).File1 ≠ (newTransaction "u2" 8 true cat cat2).File1 ∧
    (newTransaction "u1" 7 true cat cat2).File2 ≠ (newTransaction "u2" 8 true cat cat2).File2 ∧
    (∀ k ∈ putKeys (uploadFilesToBlobStorage (envOk docTrue "u1") w0 [cat, cat2]
          (newTransaction "u1" 7 true cat cat2)).2.2,
        k ∉ putKeys (uploadFilesToBlobStorage (envOk docTrue "u2") w0 [cat, cat2]
          (newTransaction "u2" 8 true cat cat2)).2.2) :=
  have h := storage_keys_distinct (envOk docTrue "u1") (envOk docTrue "u2") w0 w0 "u1" "u2" 7 8
    true true cat cat2 (by decide)
  ⟨h.1, h.2.1, h.2.2 (by decide)⟩

/-- Claim C9, evaluated where it fails. Both parts are named `cat.png`, every
call succeeds and the response is 200; both puts go to the key `u1_cat.png`, the
container ends with the single blob of `file2`, and the bytes of `file1` are not
stored. -/
theorem same_filename_single_blob :
    (faceRecognition (envOk docTrue "u1") w0 reqSameName).1.status = 200 ∧
    putKeys (faceRecognition (envOk docTrue "u1") w0 reqSameName).2.2 =
      ["u1_cat.png", "u1_cat.png"] ∧
    (faceRecognition (envOk docTrue "u1") w0 reqSameName).2.1.blobs = [("u1_cat.png", [3])] ∧
    getBlob "u1_cat.png" (faceRecognition (envOk docTrue "u1") w0 reqSameName).2.1.blobs ≠
      some cat.content := by
  decide

/-- No compensation after a failed insert. When the comparison and both uploads
succeed and the connection to the document store or the insert fails, the
response is 500 with error "error storing transaction"; the container is exactly
as the two uploads left it, so the blob of `file2` is there and, when the file
names differ, the blob of `file1` too; no record is inserted, and the only calls
outside the document store are the comparison call, the container creation and
the two puts. -/
theorem insert_failure_keeps_blobs (env : Env) (w : World) (req : Request)
    (f1 f2 : FileHeader) (b : Bool) (id : String) (tx : Transaction)
    (h1 : formFile req "file1" = some f1) (h2 : formFile req "file2" = some f2)
    (hc : (callMicroService1 env f1 f2).1 = .ok b) (hid : env.uuidNew = some id)
    (htx : tx = newTransaction id env.timeNow b f1 f2)
    (hup : (uploadFilesToBlobStorage env w [f1, f2] tx).1 = none)
    (hst : env.mongoConnect ≠ none ∨ env.insertOne ≠ none) :
    (faceRecognition env w req).1 = ⟨500, [("error", .str "error storing transaction")]⟩ ∧
    (faceRecognition env w req).2.1.blobs =
      (uploadFilesToBlobStorage env w [f1, f2] tx).2.1.blobs ∧
    (faceRecognition env w req).2.1.blobs =
      putBlob (blobKey tx f2) f2.content (putBlob (blobKey tx f1) f1.content w.blobs) ∧
    getBlob (blobKey tx f2) (faceRecognition env w req).2.1.blobs = some f2.content ∧
    (f1.Filename ≠ f2.Filename →
      getBlob (blobKey tx f1) (faceRecognition env w req).2.1.blobs = some f1.content) ∧
    (faceRecognition env w req).2.1.records = w.records ∧
    (faceRecognition env w req).2.2.filter (fun e => !e.isMongo) =
      [sentEvent env f1 f2 true,
       .createContainer env.cfg.containerName true,
       .putBlob (blobKey tx f1) f1.content true,
       .putBlob (blobKey tx f2) f2.content true] := by
  subst htx
  obtain ⟨e, hs⟩ := storeTransaction_fails env
    (uploadFilesToBlobStorage env w [f1, f2] (newTransaction id env.timeNow b f1 f2)).2.1
    (newTransaction id env.timeNow b f1 f2) hst
  have hfr := faceRecognition_store_error env w req f1 f2 b id e h1 h2 hc hid hup hs
  obtain ⟨hw, htr⟩ := storeTransaction_error env _ _ e hs
  have hu := upload_two_ok env w f1 f2 _ hup
  have hb : (faceRecognition env w req).2.1 =
      (uploadFilesToBlobStorage env w [f1, f2] (newTransaction id env.timeNow b f1 f2)).2.1 := by
    rw [hfr]
    exact hw
  refine ⟨by rw [hfr], by rw [hb], by rw [hb, hu], ?_, ?_, by rw [hb, hu], ?_⟩
  · rw [hb, hu]
    exact getBlob_putBlob_self _ _ _
  · intro hne
    rw [hb, hu]
    simp only
    rw [getBlob_putBlob_of_ne _ _ _ _ (blobKey_ne_of_filename_ne _ f1 f2 hne)]
    exact getBlob_putBlob_self _ _ _
  · rw [hfr, callMicroService1_ok_trace env f1 f2 b hc]
    rcases htr with h | h <;> rw [h, hu] <;> simp [List.filter, Event.isMongo, sentEvent]

/-- The insert fails after both files of `reqBoth`, of distinct names, were stored. -/
theorem insert_failure_keeps_blobs_witness :
    (faceRecognition envInsertFails w0 reqBoth).1 =
      ⟨500, [("error", .str "error storing transaction")]⟩ ∧
    (faceRecognition envInsertFails w0 reqBoth).2.1.blobs =
      (uploadFilesToBlobStorage envInsertFails w0 [cat, cat2] tx1).2.1.blobs ∧
    (faceRecognition envInsertFails w0 reqBoth).2.1.blobs =
      putBlob (blobKey tx1 cat2) cat2.content (putBlob (blobKey tx1 cat) cat.content w0.blobs) ∧
    getBlob (blobKey tx1 cat2) (faceRecognition envInsertFails w0 reqBoth).2.1.blobs =
      some cat2.content ∧
    getBlob (blobKey tx1 cat) (faceRecognition envInsertFails w0 reqBoth).2.1.blobs =
      some cat.content ∧
    (faceRecognition envInsertFails w0 reqBoth).2.1.records = w0.records ∧
    (faceRecognition envInsertFails w0 reqBoth).2.2.filter (fun e => !e.isMongo) =
      [sentEvent envInsertFails cat cat2 true,
       .createContainer envInsertFails.cfg.containerName true,
       .putBlob (blobKey tx1 cat) cat.content true,
       .putBlob (blobKey tx1 cat2) cat2.content true] :=
  have h := insert_failure_keeps_blobs envInsertFails w0 reqBoth cat cat2 true "u1" tx1
    (by decide) (by decide) rfl rfl rfl rfl (Or.inr (by decide))
  ⟨h.1, h.2.1, h.2.2.1, h.2.2.2.1, h.2.2.2.2.1 (by decide), h.2.2.2.2.2.1, h.2.2.2.2.2.2⟩

/-- Claim C10, evaluated where it fails. Both parts are named `cat.png`, the
comparison and both puts succeed and the insert fails; the response is 500 with
error "error storing transaction" and no record is inserted, but both puts went
to the key `u1_cat.png`, so the container holds the single blob of `file2` and
the bytes of `file1` are not in it: one blob remains, not two. -/
theorem insert_failure_same_filename_single_blob :
    (faceRecognition envInsertFails w0 reqSameName).1 =
      ⟨500, [("error", .str "error storing transaction")]⟩ ∧
    (uploadFilesToBlobStorage envInsertFails w0 [cat, catAgain]
      (newTransaction "u1" envInsertFails.timeNow true cat catAgain)).1 = none ∧
    putKeys (faceRecognition envInsertFails w0 reqSameName).2.2 =
      ["u1_cat.png", "u1_cat.png"] ∧
    (faceRecognition envInsertFails w0 reqSameName).2.1.records = [] ∧
    (faceRecognition envInsertFails w0 reqSameName).2.1.blobs = [("u1_cat.png", [3])] ∧
    getBlob "u1_cat.png" (faceRecognition envInsertFails w0 reqSameName).2.1.blobs ≠
      some cat.content := by
  decide

end FaceRecognition
